import Mathlib

/-!
Shallow embedding of the mock fintech API (in-memory entity store plus
per-resource route handlers).  Amounts are modelled as rationals, JS
timestamps as strings, and nullable JS fields as `Option`.  A patch object
(the `updates` argument of the store's update helpers) is a record of
optional fields: `none` means the key is absent from the patch, `some v`
means the key is present with value `v`; for fields that are themselves
nullable the patch field has type `Option (Option _)`.
-/

namespace DummyApi

/-- JS truthiness of a nullable string (null/undefined and `""` are falsy). -/
def strTruthy : Option String → Bool
  | none => false
  | some s => s != ""

/-- JS truthiness of a nullable number (null/undefined and `0` are falsy). -/
def qTruthy : Option ℚ → Bool
  | none => false
  | some q => q != 0

/-- JS `x || d` for a nullable string `x` with default `d`. -/
def jsOrStr (o : Option String) (d : String) : String :=
  match o with
  | none => d
  | some s => if s == "" then d else s

/-- JS `String(n).padStart(3, '0')`, used by the store's id generators. -/
def pad3 (n : Nat) : String :=
  let s := toString n
  if s.length ≥ 3 then s else String.mk (List.replicate (3 - s.length) '0') ++ s

/-- Success/error envelope of a non-checker handler (`res.status(...).json(...)`). -/
inductive ApiResult (α : Type) where
  | ok (data : α) (message : String)
  | err (httpStatus : Nat) (message : String)
deriving DecidableEq

/-- Checker envelope (`{result, reason, metadata}`); `M` is the
resource-specific metadata shape. -/
structure CheckerResp (M : Type) where
  result : Bool
  reason : String
  metadata : M
deriving DecidableEq

/-! ## Records (src/data/mockData.js) -/

structure Account where
  id : String
  customerId : String
  type : String
  currency : String
  balance : ℚ
  status : String
  accountNumber : String
  createdAt : String
  updatedAt : String
deriving DecidableEq

structure Transaction where
  id : String
  accountId : String
  type : String
  amount : ℚ
  currency : String
  description : String
  status : String
  counterparty : String
  initiatedAt : String
  processedAt : Option String
  reference : String
deriving DecidableEq

structure Payment where
  id : String
  accountId : String
  beneficiary : String
  beneficiaryAccount : String
  amount : ℚ
  currency : String
  method : String
  status : String
  reference : String
  initiatedAt : String
  completedAt : Option String
  kycComplete : Bool
  sufficientBalance : Bool
deriving DecidableEq

structure Loan where
  id : String
  customerId : String
  accountId : String
  amount : ℚ
  currency : String
  purpose : String
  tenure : ℚ
  interestRate : ℚ
  status : String
  creditScore : Int
  eligible : Bool
  appliedAt : String
  approvedAt : Option String
  disbursedAt : Option String
  rejectionReason : Option String
  monthlyPayment : Option ℚ
  remainingBalance : Option ℚ
deriving DecidableEq

structure AirtimePurchase where
  id : String
  accountId : String
  phoneNumber : String
  amount : ℚ
  currency : String
  provider : String
  status : String
  transactionReference : String
  purchasedAt : String
  completedAt : Option String
  deliveryStatus : String
deriving DecidableEq

structure KycRecord where
  customerId : String
  status : String
  level : String
  documents : List String
  riskRating : String
  verifiedAt : Option String
  expiresAt : Option String
  pendingItems : List String
  rejectionReason : Option String
deriving DecidableEq

structure AccountLimit where
  accountId : String
  dailyLimit : ℚ
  monthlyLimit : ℚ
  dailyUsed : ℚ
  monthlyUsed : ℚ
  currency : String
  updatedAt : String
deriving DecidableEq

/-! ## Patch objects and merge (JS object spread `{...record, ...updates}`) -/

structure PaymentPatch where
  id : Option String := none
  accountId : Option String := none
  beneficiary : Option String := none
  beneficiaryAccount : Option String := none
  amount : Option ℚ := none
  currency : Option String := none
  method : Option String := none
  status : Option String := none
  reference : Option String := none
  initiatedAt : Option String := none
  completedAt : Option (Option String) := none
  kycComplete : Option Bool := none
  sufficientBalance : Option Bool := none
deriving DecidableEq

def mergePayment (p : Payment) (u : PaymentPatch) : Payment :=
  { id := u.id.getD p.id
    accountId := u.accountId.getD p.accountId
    beneficiary := u.beneficiary.getD p.beneficiary
    beneficiaryAccount := u.beneficiaryAccount.getD p.beneficiaryAccount
    amount := u.amount.getD p.amount
    currency := u.currency.getD p.currency
    method := u.method.getD p.method
    status := u.status.getD p.status
    reference := u.reference.getD p.reference
    initiatedAt := u.initiatedAt.getD p.initiatedAt
    completedAt := u.completedAt.getD p.completedAt
    kycComplete := u.kycComplete.getD p.kycComplete
    sufficientBalance := u.sufficientBalance.getD p.sufficientBalance }

/-- Body of `updatePayment` on a found record (mockData.js:304-312): merge the
patch, then stamp `completedAt` when the patch's status is `completed` and the
merged record's `completedAt` is still falsy. -/
def updatePaymentFound (p : Payment) (u : PaymentPatch) (now : String) : Payment :=
  let m := mergePayment p u
  if u.status == some "completed" && !(strTruthy m.completedAt) then
    { m with completedAt := some now }
  else m

structure LoanPatch where
  id : Option String := none
  customerId : Option String := none
  accountId : Option String := none
  amount : Option ℚ := none
  currency : Option String := none
  purpose : Option String := none
  tenure : Option ℚ := none
  interestRate : Option ℚ := none
  status : Option String := none
  creditScore : Option Int := none
  eligible : Option Bool := none
  appliedAt : Option String := none
  approvedAt : Option (Option String) := none
  disbursedAt : Option (Option String) := none
  rejectionReason : Option (Option String) := none
  monthlyPayment : Option (Option ℚ) := none
  remainingBalance : Option (Option ℚ) := none
deriving DecidableEq

def mergeLoan (l : Loan) (u : LoanPatch) : Loan :=
  { id := u.id.getD l.id
    customerId := u.customerId.getD l.customerId
    accountId := u.accountId.getD l.accountId
    amount := u.amount.getD l.amount
    currency := u.currency.getD l.currency
    purpose := u.purpose.getD l.purpose
    tenure := u.tenure.getD l.tenure
    interestRate := u.interestRate.getD l.interestRate
    status := u.status.getD l.status
    creditScore := u.creditScore.getD l.creditScore
    eligible := u.eligible.getD l.eligible
    appliedAt := u.appliedAt.getD l.appliedAt
    approvedAt := u.approvedAt.getD l.approvedAt
    disbursedAt := u.disbursedAt.getD l.disbursedAt
    rejectionReason := u.rejectionReason.getD l.rejectionReason
    monthlyPayment := u.monthlyPayment.getD l.monthlyPayment
    remainingBalance := u.remainingBalance.getD l.remainingBalance }

/-- First stamping statement of `updateLoan` (mockData.js:334-336): set
`approvedAt` when the patch status is `approved` and it is still falsy. -/
def loanStampApproved (m : Loan) (u : LoanPatch) (now : String) : Loan :=
  if u.status == some "approved" && !(strTruthy m.approvedAt) then
    { m with approvedAt := some now } else m

/-- Second stamping statement of `updateLoan` (mockData.js:337-339): set
`disbursedAt` when the patch status is `disbursed` and it is still falsy. -/
def loanStampDisbursed (m : Loan) (u : LoanPatch) (now : String) : Loan :=
  if u.status == some "disbursed" && !(strTruthy m.disbursedAt) then
    { m with disbursedAt := some now } else m

/-- Body of `updateLoan` on a found record (mockData.js:330-341): merge, then
stamp `approvedAt` on patch status `approved` and `disbursedAt` on patch
status `disbursed`, each only if still falsy after the merge. -/
def updateLoanFound (l : Loan) (u : LoanPatch) (now : String) : Loan :=
  loanStampDisbursed (loanStampApproved (mergeLoan l u) u now) u now

structure AirtimePatch where
  id : Option String := none
  accountId : Option String := none
  phoneNumber : Option String := none
  amount : Option ℚ := none
  currency : Option String := none
  provider : Option String := none
  status : Option String := none
  transactionReference : Option String := none
  purchasedAt : Option String := none
  completedAt : Option (Option String) := none
  deliveryStatus : Option String := none
deriving DecidableEq

def mergeAirtime (a : AirtimePurchase) (u : AirtimePatch) : AirtimePurchase :=
  { id := u.id.getD a.id
    accountId := u.accountId.getD a.accountId
    phoneNumber := u.phoneNumber.getD a.phoneNumber
    amount := u.amount.getD a.amount
    currency := u.currency.getD a.currency
    provider := u.provider.getD a.provider
    status := u.status.getD a.status
    transactionReference := u.transactionReference.getD a.transactionReference
    purchasedAt := u.purchasedAt.getD a.purchasedAt
    completedAt := u.completedAt.getD a.completedAt
    deliveryStatus := u.deliveryStatus.getD a.deliveryStatus }

/-- Body of `updateAirtimePurchase` on a found record (mockData.js:358-367). -/
def updateAirtimeFound (a : AirtimePurchase) (u : AirtimePatch) (now : String) :
    AirtimePurchase :=
  let m := mergeAirtime a u
  if u.status == some "completed" && !(strTruthy m.completedAt) then
    { m with completedAt := some now, deliveryStatus := "delivered" }
  else m

structure KycPatch where
  customerId : Option String := none
  status : Option String := none
  level : Option String := none
  documents : Option (List String) := none
  riskRating : Option String := none
  verifiedAt : Option (Option String) := none
  expiresAt : Option (Option String) := none
  pendingItems : Option (List String) := none
  rejectionReason : Option (Option String) := none
deriving DecidableEq

def mergeKyc (k : KycRecord) (u : KycPatch) : KycRecord :=
  { customerId := u.customerId.getD k.customerId
    status := u.status.getD k.status
    level := u.level.getD k.level
    documents := u.documents.getD k.documents
    riskRating := u.riskRating.getD k.riskRating
    verifiedAt := u.verifiedAt.getD k.verifiedAt
    expiresAt := u.expiresAt.getD k.expiresAt
    pendingItems := u.pendingItems.getD k.pendingItems
    rejectionReason := u.rejectionReason.getD k.rejectionReason }

/-- Body of `updateKycRecord` on a found record (mockData.js:387-392); `expiry`
stands for `now + 365 days` computed by the source. -/
def updateKycFound (k : KycRecord) (u : KycPatch) (now expiry : String) : KycRecord :=
  let m := mergeKyc k u
  if u.status == some "approved" && !(strTruthy m.verifiedAt) then
    { m with verifiedAt := some now, expiresAt := some expiry }
  else m

/-- Full `updateKycRecord` upsert (mockData.js:370-393) over the stored list:
when no record matches the customerId, a default record is built, the patch is
spread over it, and it is appended — returning early, so the `approved`
stamping `if` is never reached on this path; when a record matches, the found
branch above runs. -/
def updateKycRecord : List KycRecord → String → KycPatch → String → String →
    KycRecord × List KycRecord
  | [], customerId, u, _, _ =>
    let base : KycRecord :=
      { customerId := customerId, status := "pending", level := "tier1"
        documents := [], riskRating := "medium", verifiedAt := none
        expiresAt := none, pendingItems := [], rejectionReason := none }
    let r0 := mergeKyc base u
    (r0, [r0])
  | k :: ks, customerId, u, now, expiry =>
    if k.customerId == customerId then
      let r0 := updateKycFound k u now expiry
      (r0, r0 :: ks)
    else
      let (r0, ks') := updateKycRecord ks customerId u now expiry
      (r0, k :: ks')

structure LimitPatch where
  dailyLimit : Option ℚ := none
  monthlyLimit : Option ℚ := none
  dailyUsed : Option ℚ := none
  monthlyUsed : Option ℚ := none
  currency : Option String := none
deriving DecidableEq

def mergeLimit (l : AccountLimit) (u : LimitPatch) : AccountLimit :=
  { accountId := l.accountId
    dailyLimit := u.dailyLimit.getD l.dailyLimit
    monthlyLimit := u.monthlyLimit.getD l.monthlyLimit
    dailyUsed := u.dailyUsed.getD l.dailyUsed
    monthlyUsed := u.monthlyUsed.getD l.monthlyUsed
    currency := u.currency.getD l.currency
    updatedAt := l.updatedAt }

/-! ## Checker endpoints (record level) -/

/-- String form of a JS number appearing in an interpolated reason message. -/
def numStr (q : ℚ) : String := toString q

inductive AccountMeta where
  | idOnly (accountId : String)
  | found (accountId status accountNumber : String)
deriving DecidableEq

/-- POST /accounts/:accountId/check-active (accounts routes). -/
def checkActive : Option Account → String → CheckerResp AccountMeta
  | none, accountId =>
    { result := false, reason := "Account not found", metadata := .idOnly accountId }
  | some account, _ =>
    let isActive := account.status == "active"
    { result := isActive
      reason := if isActive then "Account is active"
        else "Account status is: " ++ account.status
      metadata := .found account.id account.status account.accountNumber }

inductive TransactionMeta where
  | idOnly (transactionId : String)
  | found (transactionId status : String) (amount : ℚ) (currency : String)
      (processedAt : Option String)
deriving DecidableEq

/-- GET /transactions/:txnId/check-cleared. -/
def checkCleared : Option Transaction → String → CheckerResp TransactionMeta
  | none, txnId =>
    { result := false, reason := "Transaction not found", metadata := .idOnly txnId }
  | some txn, _ =>
    let isCleared := txn.status == "cleared"
    { result := isCleared
      reason := if isCleared then "Transaction has been cleared"
        else "Transaction status is: " ++ txn.status
      metadata := .found txn.id txn.status txn.amount txn.currency txn.processedAt }

inductive PaymentMeta where
  | idOnly (paymentId : String)
  | found (paymentId status : String) (kycComplete sufficientBalance : Bool)
      (amount : ℚ) (currency : String)
deriving DecidableEq

/-- GET /payments/:paymentId/check-ready (payments.js:273-307). -/
def checkReady : Option Payment → String → CheckerResp PaymentMeta
  | none, paymentId =>
    { result := false, reason := "Payment not found", metadata := .idOnly paymentId }
  | some payment, _ =>
    let isReady := payment.kycComplete && payment.sufficientBalance &&
      payment.status == "pending"
    let reasons :=
      (if !payment.kycComplete then ["KYC not complete"] else []) ++
      (if !payment.sufficientBalance then ["Insufficient balance"] else []) ++
      (if payment.status != "pending" then ["Payment status is " ++ payment.status]
       else [])
    { result := isReady
      reason := if isReady then "Payment is ready to process"
        else String.intercalate ", " reasons
      metadata := .found payment.id payment.status payment.kycComplete
        payment.sufficientBalance payment.amount payment.currency }

inductive LoanEligibleMeta where
  | idOnly (loanId : String)
  | found (loanId : String) (creditScore : Int) (eligible : Bool) (amount : ℚ)
      (status : String)
deriving DecidableEq

/-- GET /loans/:loanId/check-eligible (loans.js:253-283). -/
def checkEligible : Option Loan → String → CheckerResp LoanEligibleMeta
  | none, loanId =>
    { result := false, reason := "Loan not found", metadata := .idOnly loanId }
  | some loan, _ =>
    let isEligible := loan.eligible && decide (loan.creditScore ≥ 650)
    { result := isEligible
      reason := if isEligible then "Loan is eligible"
        else "Credit score " ++ toString loan.creditScore ++
          " is below minimum threshold (650)"
      metadata := .found loan.id loan.creditScore loan.eligible loan.amount loan.status }

inductive LoanApprovedMeta where
  | idOnly (loanId : String)
  | found (loanId status : String) (pendingChecks : List String)
      (approvedAt : Option String)
deriving DecidableEq

/-- GET /loans/:loanId/check-approved (loans.js:307-337). -/
def checkApproved : Option Loan → String → CheckerResp LoanApprovedMeta
  | none, loanId =>
    { result := false, reason := "Loan not found", metadata := .idOnly loanId }
  | some loan, _ =>
    let isApproved := loan.status == "approved"
    let pendingChecks := if isApproved then []
      else ["credit_check", "document_verification", "risk_assessment"]
    { result := isApproved
      reason := if isApproved then "Loan has been approved"
        else "Loan status is: " ++ loan.status
      metadata := .found loan.id loan.status pendingChecks loan.approvedAt }

inductive AirtimeMeta where
  | idOnly (purchaseId : String)
  | found (purchaseId status deliveryStatus phoneNumber : String) (amount : ℚ)
      (provider : String) (completedAt : Option String)
deriving DecidableEq

/-- GET /airtime/purchases/:purchaseId/check-completed (airtime.js:312-344). -/
def checkCompleted : Option AirtimePurchase → String → CheckerResp AirtimeMeta
  | none, purchaseId =>
    { result := false, reason := "Airtime purchase not found"
      metadata := .idOnly purchaseId }
  | some purchase, _ =>
    let isCompleted := purchase.status == "completed"
    { result := isCompleted
      reason := if isCompleted then "Airtime purchase has been completed"
        else "Purchase status is: " ++ purchase.status
      metadata := .found purchase.id purchase.status purchase.deliveryStatus
        purchase.phoneNumber purchase.amount purchase.provider purchase.completedAt }

inductive KycMeta where
  | idOnly (customerId : String)
  | found (customerId status level riskRating : String) (pendingItems : List String)
      (verifiedAt expiresAt : Option String)
deriving DecidableEq

/-- POST /kyc/customers/:customerId/check-approved (kyc routes). -/
def checkKycApproved : Option KycRecord → String → CheckerResp KycMeta
  | none, customerId =>
    { result := false, reason := "KYC record not found", metadata := .idOnly customerId }
  | some kyc, _ =>
    let isApproved := kyc.status == "approved"
    { result := isApproved
      reason := if isApproved then "KYC is approved"
        else "KYC status is: " ++ kyc.status
      metadata := .found kyc.customerId kyc.status kyc.level kyc.riskRating
        kyc.pendingItems kyc.verifiedAt kyc.expiresAt }

inductive LimitMeta where
  | idOnly (accountId : String)
  | found (accountId period : String) (requestedAmount remaining limit used : ℚ)
      (currency : String)
deriving DecidableEq

/-- GET /limits/:accountId/check-available (limits.js:199-265).  The query's
`amount` string is modelled as `Option ℚ`: `none` stands for a missing, empty,
or non-numeric value (all rejected by `!amount || isNaN(amountNum)`); the
`amountNum <= 0` test is explicit.  `periodQ = none` models an absent `period`
query parameter, defaulted to `"daily"` by destructuring. -/
def checkAvailable (limit? : Option AccountLimit) (accountId : String)
    (amount? : Option ℚ) (periodQ : Option String) : CheckerResp LimitMeta :=
  let period := periodQ.getD "daily"
  match limit? with
  | none =>
    { result := false, reason := "Account limits not found"
      metadata := .idOnly accountId }
  | some limit =>
    match amount? with
    | none =>
      { result := false, reason := "Amount must be provided and greater than 0"
        metadata := .idOnly accountId }
    | some amountNum =>
      if amountNum ≤ 0 then
        { result := false, reason := "Amount must be provided and greater than 0"
          metadata := .idOnly accountId }
      else if period == "daily" then
        let remaining := limit.dailyLimit - limit.dailyUsed
        let isAvailable := decide (remaining ≥ amountNum)
        { result := isAvailable
          reason := if isAvailable then
              "Daily limit available: " ++ numStr remaining ++ " " ++ limit.currency
            else "Insufficient daily limit. Available: " ++ numStr remaining ++ " " ++
              limit.currency ++ ", Required: " ++ numStr amountNum ++ " " ++
              limit.currency
          metadata := .found limit.accountId period amountNum remaining
            limit.dailyLimit limit.dailyUsed limit.currency }
      else if period == "monthly" then
        let remaining := limit.monthlyLimit - limit.monthlyUsed
        let isAvailable := decide (remaining ≥ amountNum)
        { result := isAvailable
          reason := if isAvailable then
              "Monthly limit available: " ++ numStr remaining ++ " " ++ limit.currency
            else "Insufficient monthly limit. Available: " ++ numStr remaining ++ " " ++
              limit.currency ++ ", Required: " ++ numStr amountNum ++ " " ++
              limit.currency
          metadata := .found limit.accountId period amountNum remaining
            limit.monthlyLimit limit.monthlyUsed limit.currency }
      else
        { result := false, reason := "Period must be \x22daily\x22 or \x22monthly\x22"
          metadata := .idOnly accountId }

/-! ## Mutating route handlers (record level) -/

/-- POST /payments/:paymentId/cancel on a found payment (payments.js:219-249).
Returns the response together with the payment's state after the request. -/
def cancelPayment (p : Payment) (now : String) : ApiResult Payment × Payment :=
  if p.status == "completed" then
    (.err 400 "Cannot cancel a completed payment", p)
  else
    let p' := updatePaymentFound p { status := some "cancelled" } now
    (.ok p' "Payment cancelled", p')

/-- POST /loans/:loanId/approve on a found loan (loans.js:377-411). -/
def approveLoan (l : Loan) (now : String) : ApiResult Loan × Loan :=
  if l.status != "pending" then
    (.err 400 ("Cannot approve loan with status: " ++ l.status), l)
  else
    let l' := updateLoanFound l
      { status := some "approved"
        disbursedAt := some (some now)
        remainingBalance := some (some l.amount) } now
    (.ok l' "Loan approved and disbursed", l')

/-- POST /loans/:loanId/reject on a found loan (loans.js:460-494). -/
def rejectLoan (l : Loan) (reason : Option String) (now : String) :
    ApiResult Loan × Loan :=
  if l.status != "pending" then
    (.err 400 ("Cannot reject loan with status: " ++ l.status), l)
  else
    let l' := updateLoanFound l
      { status := some "rejected"
        rejectionReason :=
          some (some (jsOrStr reason "Application does not meet requirements")) } now
    (.ok l' "Loan application rejected", l')

/-! ## Entity store (the module-level arrays of mockData.js) -/

structure Store where
  accounts : List Account
  transactions : List Transaction
  payments : List Payment
  loans : List Loan
  airtimePurchases : List AirtimePurchase
  kycRecords : List KycRecord
  accountLimits : List AccountLimit
deriving DecidableEq

def getAccountById (s : Store) (id : String) : Option Account :=
  s.accounts.find? (fun a => a.id == id)

def getTransactionById (s : Store) (id : String) : Option Transaction :=
  s.transactions.find? (fun t => t.id == id)

def getPaymentById (s : Store) (id : String) : Option Payment :=
  s.payments.find? (fun p => p.id == id)

def getLoanById (s : Store) (id : String) : Option Loan :=
  s.loans.find? (fun l => l.id == id)

def getAirtimePurchaseById (s : Store) (id : String) : Option AirtimePurchase :=
  s.airtimePurchases.find? (fun p => p.id == id)

def getKycRecord (s : Store) (customerId : String) : Option KycRecord :=
  s.kycRecords.find? (fun k => k.customerId == customerId)

def getAccountLimit (s : Store) (accountId : String) : Option AccountLimit :=
  s.accountLimits.find? (fun l => l.accountId == accountId)

/-- `addPayment` (mockData.js:292-303) plus the fields the initiate route puts
into the partial record it spreads. -/
def addPayment (s : Store) (accountId beneficiary beneficiaryAccount : String)
    (amount : ℚ) (currency method : String) (reference : Option String)
    (kycComplete sufficientBalance : Bool) (now : String) : Payment × Store :=
  let n := s.payments.length + 1
  let p : Payment :=
    { id := "pay-" ++ pad3 n
      accountId := accountId
      beneficiary := beneficiary
      beneficiaryAccount := beneficiaryAccount
      amount := amount
      currency := currency
      method := method
      status := "pending"
      reference := jsOrStr reference ("PAY-REF-" ++ pad3 n)
      initiatedAt := now
      completedAt := none
      kycComplete := kycComplete
      sufficientBalance := sufficientBalance }
  (p, { s with payments := s.payments ++ [p] })

/-- POST /payments/initiate (payments.js:77-127).  Body fields are passed as
arguments; `amount = none` models a missing or null body amount. -/
def initiatePayment (s : Store) (accountId beneficiary beneficiaryAccount : String)
    (amount : Option ℚ) (currency : String) (method reference : Option String)
    (now : String) : ApiResult Payment × Store :=
  if !(accountId != "") || !(beneficiary != "") || !(beneficiaryAccount != "") ||
      !(qTruthy amount) || !(currency != "") then
    (.err 400
      "Missing required fields: accountId, beneficiary, beneficiaryAccount, amount, currency",
      s)
  else
    let v := amount.getD 0
    if v ≤ 0 then
      (.err 400 "Amount must be greater than 0", s)
    else
      match getAccountById s accountId with
      | none => (.err 404 "Account not found", s)
      | some account =>
        let (payment, s') := addPayment s accountId beneficiary beneficiaryAccount v
          currency (jsOrStr method "bank_transfer") reference
          true (decide (account.balance ≥ v)) now
        (.ok payment "Payment initiated", s')

/-- `updateAccountLimit` (mockData.js:396-414): upsert by accountId; the found
branch re-stamps `updatedAt`, the absent branch builds a default record, merges
the patch over it, and appends it. -/
def upsertLimit : List AccountLimit → String → LimitPatch → String →
    AccountLimit × List AccountLimit
  | [], accountId, u, now =>
    let base : AccountLimit :=
      { accountId := accountId, dailyLimit := 1000, monthlyLimit := 10000
        dailyUsed := 0, monthlyUsed := 0, currency := "GHS", updatedAt := now }
    let r0 := mergeLimit base u
    (r0, [r0])
  | L :: Ls, accountId, u, now =>
    if L.accountId == accountId then
      let r0 := { mergeLimit L u with updatedAt := now }
      (r0, r0 :: Ls)
    else
      let (r0, Ls') := upsertLimit Ls accountId u now
      (r0, L :: Ls')

/-- POST /limits/:accountId/update (limits.js:115-160).  Presence of a body
limit is tested by JS truthiness first, then each supplied limit is checked
non-negative, then the collected updates are upserted. -/
def updateLimitsRoute (s : Store) (accountId : String)
    (dailyLimit monthlyLimit : Option ℚ) (now : String) :
    ApiResult AccountLimit × Store :=
  if !(qTruthy dailyLimit) && !(qTruthy monthlyLimit) then
    (.err 400 "At least one limit must be provided: dailyLimit or monthlyLimit", s)
  else if (match dailyLimit with | some q => decide (q < 0) | none => false) then
    (.err 400 "dailyLimit must be >= 0", s)
  else if (match monthlyLimit with | some q => decide (q < 0) | none => false) then
    (.err 400 "monthlyLimit must be >= 0", s)
  else
    let u : LimitPatch := { dailyLimit := dailyLimit, monthlyLimit := monthlyLimit }
    let (r0, Ls) := upsertLimit s.accountLimits accountId u now
    (.ok r0 "Account limits updated", { s with accountLimits := Ls })

/-! ## Checker routes threaded through the store.  Each handler body only calls
the store's getter before building its response, so the store component of the
result is returned as received. -/

def checkActiveRoute (s : Store) (accountId : String) :
    CheckerResp AccountMeta × Store :=
  (checkActive (getAccountById s accountId) accountId, s)

def checkClearedRoute (s : Store) (txnId : String) :
    CheckerResp TransactionMeta × Store :=
  (checkCleared (getTransactionById s txnId) txnId, s)

def checkReadyRoute (s : Store) (paymentId : String) :
    CheckerResp PaymentMeta × Store :=
  (checkReady (getPaymentById s paymentId) paymentId, s)

def checkEligibleRoute (s : Store) (loanId : String) :
    CheckerResp LoanEligibleMeta × Store :=
  (checkEligible (getLoanById s loanId) loanId, s)

def checkApprovedRoute (s : Store) (loanId : String) :
    CheckerResp LoanApprovedMeta × Store :=
  (checkApproved (getLoanById s loanId) loanId, s)

def checkCompletedRoute (s : Store) (purchaseId : String) :
    CheckerResp AirtimeMeta × Store :=
  (checkCompleted (getAirtimePurchaseById s purchaseId) purchaseId, s)

def checkKycApprovedRoute (s : Store) (customerId : String) :
    CheckerResp KycMeta × Store :=
  (checkKycApproved (getKycRecord s customerId) customerId, s)

def checkAvailableRoute (s : Store) (accountId : String) (amount? : Option ℚ)
    (periodQ : Option String) : CheckerResp LimitMeta × Store :=
  (checkAvailable (getAccountLimit s accountId) accountId amount? periodQ, s)

/-! ## Sample records, taken from the seed data of mockData.js -/

def account001 : Account :=
  { id := "acc-001", customerId := "cust-001", type := "savings", currency := "GHS"
    balance := 5000, status := "active", accountNumber := "1234567890"
    createdAt := "2024-01-15T10:00:00Z", updatedAt := "2024-01-15T10:00:00Z" }

def pay001 : Payment :=
  { id := "pay-001", accountId := "acc-001", beneficiary := "John Doe"
    beneficiaryAccount := "9876543210", amount := 200, currency := "GHS"
    method := "bank_transfer", status := "completed", reference := "PAY-REF-001"
    initiatedAt := "2024-01-18T08:00:00Z", completedAt := some "2024-01-18T08:15:00Z"
    kycComplete := true, sufficientBalance := true }

def pay002 : Payment :=
  { id := "pay-002", accountId := "acc-002", beneficiary := "Jane Smith"
    beneficiaryAccount := "9876543211", amount := 150, currency := "GHS"
    method := "bank_transfer", status := "pending", reference := "PAY-REF-002"
    initiatedAt := "2024-01-20T10:00:00Z", completedAt := none
    kycComplete := true, sufficientBalance := false }

/-- `pay002` after a successful cancellation. -/
def payCancelled : Payment := { pay002 with status := "cancelled" }

def loan001 : Loan :=
  { id := "loan-001", customerId := "cust-001", accountId := "acc-001"
    amount := 5000, currency := "GHS", purpose := "Business expansion", tenure := 12
    interestRate := 8.5, status := "approved", creditScore := 750, eligible := true
    appliedAt := "2024-01-10T09:00:00Z", approvedAt := some "2024-01-12T14:00:00Z"
    disbursedAt := some "2024-01-13T10:00:00Z", rejectionReason := none
    monthlyPayment := some 437.5, remainingBalance := some 5000 }

def loan002 : Loan :=
  { id := "loan-002", customerId := "cust-002", accountId := "acc-002"
    amount := 3000, currency := "GHS", purpose := "Personal use", tenure := 6
    interestRate := 10, status := "pending", creditScore := 680, eligible := true
    appliedAt := "2024-01-19T11:00:00Z", approvedAt := none, disbursedAt := none
    rejectionReason := none, monthlyPayment := some 525, remainingBalance := none }

/-- A pending loan carrying a stale `disbursedAt` value. -/
def loanPendingDisbursed : Loan := { loan002 with disbursedAt := some "2024-01-01T00:00:00Z" }

def limit001 : AccountLimit :=
  { accountId := "acc-001", dailyLimit := 1000, monthlyLimit := 10000
    dailyUsed := 250, monthlyUsed := 1200, currency := "GHS"
    updatedAt := "2024-01-20T10:00:00Z" }

def sampleStore : Store :=
  { accounts := [account001], transactions := [], payments := [pay001, pay002]
    loans := [loan001, loan002], airtimePurchases := [], kycRecords := []
    accountLimits := [limit001] }

/-- The patch sent by a bare status-update to `approved`. -/
def approvedPatch : LoanPatch := { status := some "approved" }

/-- The patch the KYC refresh route (kyc routes, refresh handler) sends to
`updateKycRecord` for a customer supplying two documents and no level, with no
existing record: status `approved`, level defaulted to `tier1`, low risk, no
pending items. -/
def refreshApprovedPatch : KycPatch :=
  { status := some "approved", level := some "tier1"
    documents := some ["id", "proof_of_address"], riskRating := some "low"
    pendingItems := some [] }

/-! ## Theorems -/

/-- The `disbursed` stamping statement never touches `approvedAt`. -/
theorem loanStampDisbursed_approvedAt (m : Loan) (u : LoanPatch) (now : String) :
    (loanStampDisbursed m u now).approvedAt = m.approvedAt := by
  unfold loanStampDisbursed
  split <;> rfl

/-- The `approved` stamping statement never touches `disbursedAt`. -/
theorem loanStampApproved_disbursedAt (m : Loan) (u : LoanPatch) (now : String) :
    (loanStampApproved m u now).disbursedAt = m.disbursedAt := by
  unfold loanStampApproved
  split <;> rfl

/-- Characterization of the `approvedAt` field after `updateLoanFound`: only
the `approved` status trigger can touch it when the patch omits the field. -/
theorem updateLoanFound_approvedAt (l : Loan) (u : LoanPatch) (now : String) :
    (updateLoanFound l u now).approvedAt =
      (if u.status == some "approved" &&
          !(strTruthy (u.approvedAt.getD l.approvedAt)) then some now
       else u.approvedAt.getD l.approvedAt) := by
  unfold updateLoanFound
  rw [loanStampDisbursed_approvedAt]
  unfold loanStampApproved
  by_cases h1 : u.status = some "approved"
  · by_cases h2 : strTruthy (u.approvedAt.getD l.approvedAt) = true
    · simp [mergeLoan, h1, h2]
    · have h2' := Bool.eq_false_iff.mpr h2
      simp [mergeLoan, h1, h2']
  · simp [mergeLoan, h1]

/-- Characterization of the `disbursedAt` field after `updateLoanFound`. -/
theorem updateLoanFound_disbursedAt (l : Loan) (u : LoanPatch) (now : String) :
    (updateLoanFound l u now).disbursedAt =
      (if u.status == some "disbursed" &&
          !(strTruthy (u.disbursedAt.getD l.disbursedAt)) then some now
       else u.disbursedAt.getD l.disbursedAt) := by
  unfold updateLoanFound loanStampDisbursed
  rw [loanStampApproved_disbursedAt]
  by_cases h1 : u.status = some "disbursed"
  · by_cases h2 : strTruthy (u.disbursedAt.getD l.disbursedAt) = true
    · simp [mergeLoan, h1, h2, loanStampApproved_disbursedAt]
    · have h2' := Bool.eq_false_iff.mpr h2
      simp [mergeLoan, h1, h2', loanStampApproved_disbursedAt]
  · simp [mergeLoan, h1, loanStampApproved_disbursedAt]

/-- Neither stamping statement touches `status`. -/
theorem updateLoanFound_status (l : Loan) (u : LoanPatch) (now : String) :
    (updateLoanFound l u now).status = u.status.getD l.status := by
  unfold updateLoanFound loanStampDisbursed loanStampApproved
  split <;> split <;> rfl

/-- Neither stamping statement touches `remainingBalance`. -/
theorem updateLoanFound_remainingBalance (l : Loan) (u : LoanPatch) (now : String) :
    (updateLoanFound l u now).remainingBalance =
      u.remainingBalance.getD l.remainingBalance := by
  unfold updateLoanFound loanStampDisbursed loanStampApproved
  split <;> split <;> rfl

/-- C1 (counterexample): the cancel route only rejects payments in the
`completed` state, so a payment whose status is `cancelled` — which is not
`pending` — is cancelled again successfully instead of failing with a
Conflict-class error, refuting the claim as stated. -/
theorem C1_counterexample :
    payCancelled.status ≠ "pending" ∧
    (cancelPayment payCancelled "2024-02-01T00:00:00Z").1 =
      ApiResult.ok payCancelled "Payment cancelled" := by
  constructor
  · decide
  · rfl

/-- C1 (amended): cancellation fails with a Conflict-class error, leaving the
payment untouched, exactly when the payment's status is `completed`; from any
other status (including `cancelled`) it succeeds and sets status to
`cancelled`, leaving every other field unchanged. -/
theorem C1_cancel_guard (p : Payment) (now : String) :
    (p.status = "completed" →
      cancelPayment p now = (.err 400 "Cannot cancel a completed payment", p)) ∧
    (p.status ≠ "completed" →
      cancelPayment p now =
        (.ok { p with status := "cancelled" } "Payment cancelled",
          { p with status := "cancelled" })) := by
  constructor
  · intro h
    simp [cancelPayment, h]
  · intro h
    simp [cancelPayment, h, updatePaymentFound, mergePayment]

/-- C1 (witness): the amended guard evaluated on a completed payment and on a
pending payment of the seed data. -/
theorem C1_witness :
    cancelPayment pay001 "T0" = (.err 400 "Cannot cancel a completed payment", pay001) ∧
    cancelPayment pay002 "T0" =
      (.ok { pay002 with status := "cancelled" } "Payment cancelled",
        { pay002 with status := "cancelled" }) :=
  ⟨(C1_cancel_guard pay001 "T0").1 rfl, (C1_cancel_guard pay002 "T0").2 (by decide)⟩

/-- C3: check-ready returns `kycComplete && sufficientBalance && status ==
pending`; when false, the reason comma-joins exactly the failing clauses in
the fixed order kyc → balance → status; in particular a payment with KYC
complete, insufficient balance and pending status yields exactly
"Insufficient balance". -/
theorem C3_check_ready (p : Payment) (pid : String) :
    (checkReady (some p) pid).result =
      (p.kycComplete && p.sufficientBalance && p.status == "pending") ∧
    ((checkReady (some p) pid).result = false →
      (checkReady (some p) pid).reason = String.intercalate ", "
        ((if p.kycComplete then [] else ["KYC not complete"]) ++
         (if p.sufficientBalance then [] else ["Insufficient balance"]) ++
         (if p.status = "pending" then [] else ["Payment status is " ++ p.status]))) ∧
    (p.kycComplete = true → p.sufficientBalance = false → p.status = "pending" →
      (checkReady (some p) pid).reason = "Insufficient balance") := by
  refine ⟨rfl, ?_, ?_⟩ <;>
    cases hk : p.kycComplete <;> cases hs : p.sufficientBalance <;>
      by_cases hp : p.status = "pending" <;>
        (simp [checkReady, hk, hs, hp]; try rfl)

/-- C3 (witness): the seed payment pay-002 (KYC complete, insufficient
balance, pending) yields exactly the balance clause. -/
theorem C3_witness : (checkReady (some pay002) "pay-002").reason = "Insufficient balance" :=
  (C3_check_ready pay002 "pay-002").2.2 rfl rfl rfl

/-- C4: approving or rejecting a loan whose status is not `pending` fails with
a Conflict-class error and returns the loan unchanged, so `status`,
`approvedAt` and `rejectionReason` are untouched. -/
theorem C4_loan_guard (l : Loan) (reason : Option String) (now : String)
    (h : l.status ≠ "pending") :
    approveLoan l now =
      (.err 400 ("Cannot approve loan with status: " ++ l.status), l) ∧
    rejectLoan l reason now =
      (.err 400 ("Cannot reject loan with status: " ++ l.status), l) ∧
    (approveLoan l now).2.status = l.status ∧
    (approveLoan l now).2.approvedAt = l.approvedAt ∧
    (approveLoan l now).2.rejectionReason = l.rejectionReason ∧
    (rejectLoan l reason now).2.status = l.status ∧
    (rejectLoan l reason now).2.approvedAt = l.approvedAt ∧
    (rejectLoan l reason now).2.rejectionReason = l.rejectionReason := by
  simp [approveLoan, rejectLoan, h]

/-- C4 (witness): the guard evaluated on the already-approved seed loan. -/
theorem C4_witness :
    approveLoan loan001 "T0" =
      (.err 400 ("Cannot approve loan with status: " ++ loan001.status), loan001) ∧
    rejectLoan loan001 none "T0" =
      (.err 400 ("Cannot reject loan with status: " ++ loan001.status), loan001) :=
  ⟨(C4_loan_guard loan001 none "T0" (by decide)).1,
   (C4_loan_guard loan001 none "T0" (by decide)).2.1⟩

/-- C6: every checker, given an id that does not resolve, responds (as an HTTP
success) with `result = false`, reason "<Resource> not found", and metadata
containing only the requested id; the checker response type has no transport
error case, so NotFound/ValidationError are never surfaced as errors. -/
theorem C6_checker_not_found (id : String) :
    checkActive none id =
      { result := false, reason := "Account not found", metadata := .idOnly id } ∧
    checkCleared none id =
      { result := false, reason := "Transaction not found", metadata := .idOnly id } ∧
    checkReady none id =
      { result := false, reason := "Payment not found", metadata := .idOnly id } ∧
    checkEligible none id =
      { result := false, reason := "Loan not found", metadata := .idOnly id } ∧
    checkApproved none id =
      { result := false, reason := "Loan not found", metadata := .idOnly id } ∧
    checkCompleted none id =
      { result := false, reason := "Airtime purchase not found", metadata := .idOnly id } ∧
    checkKycApproved none id =
      { result := false, reason := "KYC record not found", metadata := .idOnly id } ∧
    (∀ (amt : Option ℚ) (pq : Option String),
      checkAvailable none id amt pq =
        { result := false, reason := "Account limits not found", metadata := .idOnly id }) :=
  ⟨rfl, rfl, rfl, rfl, rfl, rfl, rfl, fun _ _ => rfl⟩

/-- C7: every checker route leaves the store exactly as it found it, and
running the same checker again on the resulting store returns an identical
response. -/
theorem C7_checker_readonly (s : Store) (id : String) (amt : Option ℚ)
    (pq : Option String) :
    (checkActiveRoute s id).2 = s ∧
    (checkActiveRoute (checkActiveRoute s id).2 id).1 = (checkActiveRoute s id).1 ∧
    (checkClearedRoute s id).2 = s ∧
    (checkClearedRoute (checkClearedRoute s id).2 id).1 = (checkClearedRoute s id).1 ∧
    (checkReadyRoute s id).2 = s ∧
    (checkReadyRoute (checkReadyRoute s id).2 id).1 = (checkReadyRoute s id).1 ∧
    (checkEligibleRoute s id).2 = s ∧
    (checkEligibleRoute (checkEligibleRoute s id).2 id).1 = (checkEligibleRoute s id).1 ∧
    (checkApprovedRoute s id).2 = s ∧
    (checkApprovedRoute (checkApprovedRoute s id).2 id).1 = (checkApprovedRoute s id).1 ∧
    (checkCompletedRoute s id).2 = s ∧
    (checkCompletedRoute (checkCompletedRoute s id).2 id).1 =
      (checkCompletedRoute s id).1 ∧
    (checkKycApprovedRoute s id).2 = s ∧
    (checkKycApprovedRoute (checkKycApprovedRoute s id).2 id).1 =
      (checkKycApprovedRoute s id).1 ∧
    (checkAvailableRoute s id amt pq).2 = s ∧
    (checkAvailableRoute (checkAvailableRoute s id amt pq).2 id amt pq).1 =
      (checkAvailableRoute s id amt pq).1 :=
  ⟨rfl, rfl, rfl, rfl, rfl, rfl, rfl, rfl, rfl, rfl, rfl, rfl, rfl, rfl, rfl, rfl⟩

/-- C8: approving a pending loan succeeds and yields a loan with status
`approved`, `remainingBalance` equal to the loan amount, and `disbursedAt`
equal to the approval time — the latter unconditionally, because the approve
route passes `disbursedAt` directly in the patch, so any previously set value
is overwritten. -/
theorem C8_approve_effect (l : Loan) (now : String) (h : l.status = "pending") :
    (approveLoan l now).1 = .ok (approveLoan l now).2 "Loan approved and disbursed" ∧
    (approveLoan l now).2.status = "approved" ∧
    (approveLoan l now).2.remainingBalance = some l.amount ∧
    (approveLoan l now).2.disbursedAt = some now := by
  have hg : (l.status != "pending") = false := by simp [h]
  have hred : approveLoan l now =
      (.ok (updateLoanFound l
          { status := some "approved", disbursedAt := some (some now)
            remainingBalance := some (some l.amount) } now)
        "Loan approved and disbursed",
       updateLoanFound l
        { status := some "approved", disbursedAt := some (some now)
          remainingBalance := some (some l.amount) } now) := by
    unfold approveLoan
    rw [hg]
    simp
  rw [hred]
  refine ⟨rfl, ?_, ?_, ?_⟩
  · rw [updateLoanFound_status]
    rfl
  · rw [updateLoanFound_remainingBalance]
    rfl
  · rw [updateLoanFound_disbursedAt]
    rfl

/-- C8 (witness): approving a pending loan that already carries a stale
`disbursedAt` value overwrites it with the approval time. -/
theorem C8_witness :
    (approveLoan loanPendingDisbursed "T9").2.disbursedAt = some "T9" ∧
    (approveLoan loanPendingDisbursed "T9").2.status = "approved" ∧
    (approveLoan loanPendingDisbursed "T9").2.remainingBalance =
      some loanPendingDisbursed.amount :=
  ⟨(C8_approve_effect loanPendingDisbursed "T9" rfl).2.2.2,
   (C8_approve_effect loanPendingDisbursed "T9" rfl).2.1,
   (C8_approve_effect loanPendingDisbursed "T9" rfl).2.2.1⟩

/-- C2: for a stored limit, check-available with a positive amount and a
daily/monthly period (daily when absent) returns `result = (remaining ≥
amount)` with `remaining = limit − used` for that period in the metadata; a
missing/non-numeric amount, a non-positive amount, or an unsupported period
each return `result = false` with a dedicated reason and id-only metadata (no
remaining computed); on the seed limit (1000 daily, 250 used), amount 500 is
available and amount 900 is not, both with remaining 750. -/
theorem C2_check_available :
    (∀ (L : AccountLimit) (aid : String) (v : ℚ) (pq : Option String),
      0 < v → (pq = none ∨ pq = some "daily") →
      (checkAvailable (some L) aid (some v) pq).result =
        decide (L.dailyLimit - L.dailyUsed ≥ v) ∧
      (checkAvailable (some L) aid (some v) pq).metadata =
        LimitMeta.found L.accountId "daily" v (L.dailyLimit - L.dailyUsed)
          L.dailyLimit L.dailyUsed L.currency) ∧
    (∀ (L : AccountLimit) (aid : String) (v : ℚ),
      0 < v →
      (checkAvailable (some L) aid (some v) (some "monthly")).result =
        decide (L.monthlyLimit - L.monthlyUsed ≥ v) ∧
      (checkAvailable (some L) aid (some v) (some "monthly")).metadata =
        LimitMeta.found L.accountId "monthly" v (L.monthlyLimit - L.monthlyUsed)
          L.monthlyLimit L.monthlyUsed L.currency) ∧
    (∀ (L : AccountLimit) (aid : String) (pq : Option String),
      checkAvailable (some L) aid none pq =
        { result := false, reason := "Amount must be provided and greater than 0"
          metadata := .idOnly aid }) ∧
    (∀ (L : AccountLimit) (aid : String) (v : ℚ) (pq : Option String),
      v ≤ 0 →
      checkAvailable (some L) aid (some v) pq =
        { result := false, reason := "Amount must be provided and greater than 0"
          metadata := .idOnly aid }) ∧
    (∀ (L : AccountLimit) (aid : String) (v : ℚ) (p : String),
      0 < v → p ≠ "daily" → p ≠ "monthly" →
      checkAvailable (some L) aid (some v) (some p) =
        { result := false, reason := "Period must be \x22daily\x22 or \x22monthly\x22"
          metadata := .idOnly aid }) ∧
    ((checkAvailable (some limit001) "acc-001" (some 500) (some "daily")).result = true ∧
     (checkAvailable (some limit001) "acc-001" (some 500) (some "daily")).metadata =
       LimitMeta.found "acc-001" "daily" 500 750 1000 250 "GHS" ∧
     (checkAvailable (some limit001) "acc-001" (some 900) (some "daily")).result = false ∧
     (checkAvailable (some limit001) "acc-001" (some 900) (some "daily")).metadata =
       LimitMeta.found "acc-001" "daily" 900 750 1000 250 "GHS") := by
  refine ⟨?_, ?_, ?_, ?_, ?_, ?_⟩
  · intro L aid v pq hv hpq
    rcases hpq with h | h <;> subst h <;>
      simp [checkAvailable, not_le.mpr hv]
  · intro L aid v hv
    simp [checkAvailable, not_le.mpr hv]
  · intro L aid pq
    rfl
  · intro L aid v pq hv
    simp [checkAvailable, hv]
  · intro L aid v p hv h1 h2
    simp [checkAvailable, not_le.mpr hv, h1, h2]
  · refine ⟨?_, ?_, ?_, ?_⟩ <;> norm_num [checkAvailable, limit001]

/-- C2 (witness): the daily branch of the check on the seed limit, plus an
unsupported period folded into a false verdict. -/
theorem C2_witness :
    (checkAvailable (some limit001) "acc-001" (some 500) (some "daily")).result =
      decide (limit001.dailyLimit - limit001.dailyUsed ≥ (500 : ℚ)) ∧
    (checkAvailable (some limit001) "acc-001" (some 500) (some "daily")).metadata =
      LimitMeta.found limit001.accountId "daily" 500
        (limit001.dailyLimit - limit001.dailyUsed) limit001.dailyLimit
        limit001.dailyUsed limit001.currency ∧
    checkAvailable (some limit001) "acc-001" (some 500) (some "weekly") =
      { result := false, reason := "Period must be \x22daily\x22 or \x22monthly\x22"
        metadata := .idOnly "acc-001" } :=
  ⟨(C2_check_available.1 limit001 "acc-001" 500 (some "daily") (by norm_num)
      (Or.inr rfl)).1,
   (C2_check_available.1 limit001 "acc-001" 500 (some "daily") (by norm_num)
      (Or.inr rfl)).2,
   C2_check_available.2.2.2.2.1 limit001 "acc-001" 500 "weekly" (by norm_num)
     (by decide) (by decide)⟩

/-- C5 (counterexample): updating the KYC record of an unknown customer with
the refresh route's `approved` patch — the first update whose patch status
matches the `approved` trigger — takes the upsert-create branch of
`updateKycRecord`, which returns before the stamping `if`: the created record
has status `approved` but `verifiedAt` still null, so the timestamp is not
stamped on the first matching-status update, refuting the claim as stated. -/
theorem C5_counterexample :
    (updateKycRecord [] "cust-999" refreshApprovedPatch "T1" "E1").1.status =
      "approved" ∧
    (updateKycRecord [] "cust-999" refreshApprovedPatch "T1" "E1").1.verifiedAt =
      none ∧
    (updateKycRecord [] "cust-999" refreshApprovedPatch "T1" "E1").1.verifiedAt ≠
      some "T1" := by
  refine ⟨rfl, rfl, ?_⟩
  decide

/-- C5 (amended): for updates of an existing record, each status-triggered
terminal timestamp (payment `completedAt`, loan `approvedAt` and
`disbursedAt`, airtime `completedAt`, KYC `verifiedAt`) is stamped by the
first update whose patch status matches the trigger and left unchanged by any
later update whose patch omits the field, the timestamp being already set; in
particular applying the bare `approved` patch to a loan twice never changes
the `approvedAt` set by the first application.  Exception forced by the
counterexample: when a KYC update lazily creates the record (unknown
customerId), the stamping rule is skipped, so the created record's
`verifiedAt` stays null whatever the patch status. -/
theorem C5_terminal_timestamps :
    (∀ (p : Payment) (u : PaymentPatch) (now : String), u.completedAt = none →
      strTruthy p.completedAt = true →
      (updatePaymentFound p u now).completedAt = p.completedAt) ∧
    (∀ (p : Payment) (u : PaymentPatch) (now : String), u.status = some "completed" →
      u.completedAt = none → strTruthy p.completedAt = false →
      (updatePaymentFound p u now).completedAt = some now) ∧
    (∀ (l : Loan) (u : LoanPatch) (now : String), u.approvedAt = none →
      strTruthy l.approvedAt = true →
      (updateLoanFound l u now).approvedAt = l.approvedAt) ∧
    (∀ (l : Loan) (u : LoanPatch) (now : String), u.status = some "approved" →
      u.approvedAt = none → strTruthy l.approvedAt = false →
      (updateLoanFound l u now).approvedAt = some now) ∧
    (∀ (l : Loan) (u : LoanPatch) (now : String), u.disbursedAt = none →
      strTruthy l.disbursedAt = true →
      (updateLoanFound l u now).disbursedAt = l.disbursedAt) ∧
    (∀ (l : Loan) (u : LoanPatch) (now : String), u.status = some "disbursed" →
      u.disbursedAt = none → strTruthy l.disbursedAt = false →
      (updateLoanFound l u now).disbursedAt = some now) ∧
    (∀ (a : AirtimePurchase) (u : AirtimePatch) (now : String), u.completedAt = none →
      strTruthy a.completedAt = true →
      (updateAirtimeFound a u now).completedAt = a.completedAt) ∧
    (∀ (a : AirtimePurchase) (u : AirtimePatch) (now : String),
      u.status = some "completed" → u.completedAt = none →
      strTruthy a.completedAt = false →
      (updateAirtimeFound a u now).completedAt = some now) ∧
    (∀ (k : KycRecord) (u : KycPatch) (now expiry : String), u.verifiedAt = none →
      strTruthy k.verifiedAt = true →
      (updateKycFound k u now expiry).verifiedAt = k.verifiedAt) ∧
    (∀ (k : KycRecord) (u : KycPatch) (now expiry : String),
      u.status = some "approved" → u.verifiedAt = none →
      strTruthy k.verifiedAt = false →
      (updateKycFound k u now expiry).verifiedAt = some now) ∧
    (∀ (u : KycPatch) (cid now expiry : String), u.verifiedAt = none →
      (updateKycRecord [] cid u now expiry).1.verifiedAt = none) ∧
    (∀ (l : Loan) (now1 now2 : String), strTruthy l.approvedAt = false → now1 ≠ "" →
      (updateLoanFound l approvedPatch now1).approvedAt = some now1 ∧
      (updateLoanFound (updateLoanFound l approvedPatch now1) approvedPatch
        now2).approvedAt = some now1) := by
  refine ⟨?_, ?_, ?_, ?_, ?_, ?_, ?_, ?_, ?_, ?_, ?_, ?_⟩
  · intro p u now hu ht
    simp [updatePaymentFound, mergePayment, hu, ht]
  · intro p u now hs hu ht
    simp [updatePaymentFound, mergePayment, hs, hu, ht]
  · intro l u now hu ht
    simp [updateLoanFound_approvedAt, hu, ht]
  · intro l u now hs hu ht
    simp [updateLoanFound_approvedAt, hs, hu, ht]
  · intro l u now hu ht
    simp [updateLoanFound_disbursedAt, hu, ht]
  · intro l u now hs hu ht
    simp [updateLoanFound_disbursedAt, hs, hu, ht]
  · intro a u now hu ht
    simp [updateAirtimeFound, mergeAirtime, hu, ht]
  · intro a u now hs hu ht
    simp [updateAirtimeFound, mergeAirtime, hs, hu, ht]
  · intro k u now expiry hu ht
    simp [updateKycFound, mergeKyc, hu, ht]
  · intro k u now expiry hs hu ht
    simp [updateKycFound, mergeKyc, hs, hu, ht]
  · intro u cid now expiry hu
    simp [updateKycRecord, mergeKyc, hu]
  · intro l now1 now2 ht h1
    have first : (updateLoanFound l approvedPatch now1).approvedAt = some now1 := by
      rw [updateLoanFound_approvedAt]
      have hpa : approvedPatch.approvedAt = none := rfl
      rw [hpa]
      simp [approvedPatch, ht]
    refine ⟨first, ?_⟩
    rw [updateLoanFound_approvedAt]
    have hpa : approvedPatch.approvedAt = none := rfl
    rw [hpa, Option.getD_none, first]
    simp [approvedPatch, strTruthy, h1]

/-- C5 (witness): stamping and preservation evaluated on the seed pending loan
with the bare `approved` patch, plus the unstamped KYC upsert-create branch on
a fresh customer. -/
theorem C5_witness :
    ((updateLoanFound loan002 approvedPatch "T1").approvedAt = some "T1" ∧
     (updateLoanFound (updateLoanFound loan002 approvedPatch "T1") approvedPatch
       "T2").approvedAt = some "T1") ∧
    (updateKycRecord [] "cust-777" refreshApprovedPatch "T3" "E3").1.verifiedAt =
      none :=
  ⟨C5_terminal_timestamps.2.2.2.2.2.2.2.2.2.2.2 loan002 "T1" "T2" rfl (by decide),
   C5_terminal_timestamps.2.2.2.2.2.2.2.2.2.2.1 refreshApprovedPatch "cust-777"
     "T3" "E3" rfl⟩

/-- C9: with a valid body (non-empty strings, positive amount), initiating a
payment against a missing account returns NotFound and creates nothing; with
an existing account it appends exactly one payment, which starts in status
`pending`, has `kycComplete = true` unconditionally, and has
`sufficientBalance` equal to whether the account balance covers the amount. -/
theorem C9_initiate (s : Store) (aid ben benAcc cur : String) (v : ℚ)
    (method reference : Option String) (now : String)
    (ha : aid ≠ "") (hb : ben ≠ "") (hba : benAcc ≠ "") (hc : cur ≠ "")
    (hv : 0 < v) :
    (getAccountById s aid = none →
      initiatePayment s aid ben benAcc (some v) cur method reference now =
        (.err 404 "Account not found", s)) ∧
    (∀ a, getAccountById s aid = some a →
      ∃ p, initiatePayment s aid ben benAcc (some v) cur method reference now =
          (.ok p "Payment initiated", { s with payments := s.payments ++ [p] }) ∧
        p.status = "pending" ∧ p.kycComplete = true ∧
        p.sufficientBalance = decide (a.balance ≥ v)) := by
  have hg : (!(aid != "") || !(ben != "") || !(benAcc != "") ||
      !(qTruthy (some v)) || !(cur != "")) = false := by
    simp [qTruthy, ha, hb, hba, hc, hv.ne']
  constructor
  · intro hnone
    simp [initiatePayment, hg, not_le.mpr hv, hnone]
  · intro a hsome
    refine ⟨(addPayment s aid ben benAcc v cur (jsOrStr method "bank_transfer")
      reference true (decide (a.balance ≥ v)) now).1, ?_, rfl, rfl, rfl⟩
    simp [initiatePayment, hg, not_le.mpr hv, hsome, addPayment]

/-- C9 (witness): initiating against a missing account id and against the seed
account acc-001 with amount 50. -/
theorem C9_witness :
    initiatePayment sampleStore "acc-999" "John" "123" (some 50) "GHS" none none "T" =
      (.err 404 "Account not found", sampleStore) ∧
    (∃ p, initiatePayment sampleStore "acc-001" "John" "123" (some 50) "GHS"
        none none "T" =
        (.ok p "Payment initiated",
          { sampleStore with payments := sampleStore.payments ++ [p] }) ∧
      p.status = "pending" ∧ p.kycComplete = true ∧
      p.sufficientBalance = decide (account001.balance ≥ (50 : ℚ))) :=
  ⟨(C9_initiate sampleStore "acc-999" "John" "123" "GHS" 50 none none "T"
      (by decide) (by decide) (by decide) (by decide) (by norm_num)).1 (by decide),
   (C9_initiate sampleStore "acc-001" "John" "123" "GHS" 50 none none "T"
      (by decide) (by decide) (by decide) (by decide) (by norm_num)).2 account001
     (by decide)⟩

/-- C10: a limits-update request in which every supplied limit equals 0 (for
example dailyLimit = 0 with monthlyLimit absent) is rejected with the
"At least one limit must be provided" validation error and performs no update,
because presence is tested by JS truthiness and 0 is falsy. -/
theorem C10_limits_zero (s : Store) (aid : String) (d m : Option ℚ) (now : String)
    (hd : ∀ q, d = some q → q = 0) (hm : ∀ q, m = some q → q = 0) :
    updateLimitsRoute s aid d m now =
      (.err 400 "At least one limit must be provided: dailyLimit or monthlyLimit", s) := by
  have hd' : qTruthy d = false := by
    cases d with
    | none => rfl
    | some q => simp [qTruthy, hd q rfl]
  have hm' : qTruthy m = false := by
    cases m with
    | none => rfl
    | some q => simp [qTruthy, hm q rfl]
  simp [updateLimitsRoute, hd', hm']

/-- C10 (witness): dailyLimit 0 with monthlyLimit absent is rejected and the
store is unchanged. -/
theorem C10_witness :
    updateLimitsRoute sampleStore "acc-001" (some 0) none "T" =
      (.err 400 "At least one limit must be provided: dailyLimit or monthlyLimit",
        sampleStore) :=
  C10_limits_zero sampleStore "acc-001" (some 0) none "T"
    (fun _ hq => (Option.some.inj hq).symm) (fun _ hq => nomatch hq)

end DummyApi
